import Mathlib

/-!
Verification of the QuestDB JIT filter-expression compiler core
(`core/src/main/c/share/jit/x86.h`) against its natural-language
specification.

The development shallowly embeds the single-pass stack-based translator:
the operand type system, operand model, memory addressing (including the
variable-length null/empty disambiguation), operand materialization, the
type-conversion matrix, the comparison/arithmetic dispatch, and the
instruction walker.  Register allocation is modelled by a fresh-name
counter threaded in a state monad; calls into the external null-aware
primitive library (`impl/x86.h`, out of scope per the spec) are recorded
symbolically as expression nodes, so the theorems talk about exactly which
primitive is invoked, with which register arguments, in which order.

A second, value-level model (`read_mem_varsize_sem`) gives the run-time
semantics of the code emitted for string/binary column reads, which is
needed to settle the offset-vector example claims.
-/

namespace questdb

/-- The operand data-type enumeration (`data_type_t` in `common.h`, used
throughout `x86.h`): signed 8/16/32/64-bit integers, a 128-bit type, 32/64-bit
floats, and the three variable-length header pseudo-types. -/
inductive data_type_t where
  | i8 | i16 | i32 | i64 | i128 | f32 | f64
  | string_header | binary_header | varchar_header
deriving DecidableEq, Repr

/-- Operand provenance (`data_kind_t`): loaded from row/column storage
(`kMemory`) or originating from a literal (`kConst`). -/
inductive data_kind_t where
  | kMemory | kConst
deriving DecidableEq, Repr

/-- Modelled from the spec (the definition lives in `common.h`, which is not
part of the provided source): each concrete numeric type has a fixed storage
width (1,2,4,8,16 bytes) derived from a shift amount.  The header pseudo-type
shifts are set to their header-word sizes (4, 8, 16 bytes). -/
def type_shift : data_type_t → Nat
  | .i8 => 0
  | .i16 => 1
  | .i32 => 2
  | .i64 => 3
  | .i128 => 4
  | .f32 => 2
  | .f64 => 3
  | .string_header => 2
  | .binary_header => 3
  | .varchar_header => 4

/-- The opcodes dispatched by `emit_code` / `emit_bin_op` (enumeration from
`common.h`; the set is exactly the one consumed in `x86.h`). -/
inductive opcodes where
  | Inv | Ret | Var | Mem | Imm | Neg | Not
  | And | Or | Eq | Ne | Gt | Ge | Lt | Le
  | Add | Sub | Mul | Div
deriving DecidableEq, Repr

/-- One instruction of the stream (`instruction_t`): opcode, a data-type
discriminant (`options`), and a payload.  The C payload is a union of two
64-bit integers and one 64-bit float; the union is modelled as separate
fields, only the fields a given opcode reads are meaningful.  The float
payload is carried as an exact rational (every IEEE double is one). -/
structure instruction_t where
  opcode : opcodes
  options : data_type_t
  ipayload_lo : Int
  ipayload_hi : Int
  dpayload : Rat
deriving DecidableEq, Repr

/-- An `asmjit::Imm` payload: an integer or a double literal
(`Imm::isInteger()` discriminates). -/
inductive imm_val where
  | intV (v : Int)
  | fpV (v : Rat)
deriving DecidableEq, Repr

/-- The named epsilon constants passed to the epsilon-tolerant float
primitives (`FLOAT_EPSILON` / `DOUBLE_EPSILON`, defined in the external
primitive library). -/
inductive eps_const where
  | FLOAT_EPSILON | DOUBLE_EPSILON
deriving DecidableEq, Repr

/-- The external null-aware primitives of `impl/x86.h` that `x86.h` calls
into.  They are recorded symbolically. -/
inductive prim_op where
  | int32_neg | int64_neg | float_neg | double_neg | int32_not
  | int32_and | int32_or
  | int32_eq | int64_eq | int128_eq | float_eq_epsilon | double_eq_epsilon
  | int32_ne | int64_ne | int128_ne | float_ne_epsilon | double_ne_epsilon
  | int32_gt | int64_gt | float_gt | double_gt
  | int32_ge | int64_ge | float_ge | double_ge
  | int32_lt | int64_lt | float_lt | double_lt
  | int32_le | int64_le | float_le | double_le
  | int32_add | int64_add | float_add | double_add
  | int32_sub | int64_sub | float_sub | double_sub
  | int32_mul | int64_mul | float_mul | double_mul
  | int32_div | int64_div | float_div | double_div
  | int32_to_int64 | int32_to_float | int32_to_double
  | int64_to_double | float_to_double
deriving DecidableEq, Repr

/-- A raw memory operand (`asmjit::x86::Mem`) as built by the addressing
code: a scalar-variable slot, a fixed-width column cell (index-scaled or
explicit-offset form), or a constant-pool entry.  Pool entries record the
C cast producing the stored constant (`static_cast<float>`/`<double>` of an
integer literal, or of a double literal) symbolically, since IEEE rounding
is not re-implemented here. -/
inductive mem_ref where
  | varsMem (idx : Int) (size : Nat)
  | colMem (col : Int) (shift : Nat) (size : Nat)
  | colMemWide (col : Int) (size : Nat)
  | pool16 (lo hi : Int)
  | poolF32ofInt (v : Int)
  | poolF64ofInt (v : Int)
  | poolF32ofF (v : Rat)
  | poolF64ofF (v : Rat)
deriving DecidableEq, Repr

/-- The computation held by a virtual register, recorded symbolically as the
code is emitted.  Primitive calls record the external primitive, the ids of
the argument registers, the expressions those registers hold, and (when the
primitive takes one) the null-check flag.  `varsizeLoad` / `varcharHeaderLoad`
summarize the branchy load sequences of `read_mem_varsize` /
`read_mem_varchar_header`, whose value semantics is modelled separately. -/
inductive expr where
  | loadE (m : mem_ref) (t : data_type_t)
  | movI32 (v : Int)
  | movAbs (v : Int)
  | loadPool (m : mem_ref)
  | varsizeLoad (header_size : Nat) (column_idx : Int)
  | varcharHeaderLoad (column_idx : Int)
  | prim1E (op : prim_op) (aid : Nat) (a : expr) (nc : Option Bool)
  | prim2E (op : prim_op) (aid bid : Nat) (a b : expr) (nc : Option Bool)
  | prim2eps (op : prim_op) (aid bid : Nat) (a b : expr) (eps : eps_const)
  | cvtE (op : prim_op) (aid : Nat) (a : expr) (nc : Option Bool)
deriving DecidableEq, Repr

/-- The operand union inside a `jit_value_t`: an immediate, a raw memory
reference, or a (virtual) register, identified by the fresh id the
`Compiler` handed out and carrying the expression it holds. -/
inductive operand where
  | immO (v : imm_val)
  | memO (m : mem_ref)
  | regO (id : Nat) (e : expr)
deriving DecidableEq, Repr

/-- `operand.isImm` mirrors `Operand::isImm()`. -/
def operand.isImm : operand → Bool
  | .immO _ => true
  | _ => false

/-- `operand.isMem` mirrors `Operand::isMem()`. -/
def operand.isMem : operand → Bool
  | .memO _ => true
  | _ => false

/-- `jit_value_t`: the tagged operand value flowing through the evaluation
stack — operand, data type, data kind. -/
structure jit_value_t where
  op : operand
  dtype : data_type_t
  dkind : data_kind_t
deriving DecidableEq, Repr

/-- Compilation errors of the embedding.  The C code has no error channel:
`unreachableHit` models a `__builtin_unreachable()` default being reached,
`emptyStackPop` models `ZoneStack::pop()` on an empty stack (an assertion
failure in debug builds, undefined behavior in release builds), and
`wrongOperandAccess` models `Operand::as<T>()` / `.gp()` / `.xmm()` applied
to the wrong union variant.  None of these is a reported error in the C
code; they mark the points where its behavior is undefined. -/
inductive compile_err where
  | unreachableHit
  | emptyStackPop
  | wrongOperandAccess
deriving DecidableEq, Repr

/-- The emission monad: the `Compiler`'s virtual-register name counter,
threaded in state, over the undefined-behavior channel. -/
abbrev EmitM (α : Type) : Type := StateT Nat (Except compile_err) α

/-- Allocate a fresh virtual register id (`Compiler::newInt64` /
`newGpd` / `newGpq` / `newXmm...` all draw from this counter). -/
def newId : EmitM Nat := do
  let c ← get
  set (c + 1)
  pure c

/-- Access a `jit_value_t` as a register, as `v.gp()` / `v.xmm()` do;
anything else is a wrong-variant access. -/
def jit_value_t.asReg : jit_value_t → EmitM (Nat × expr)
  | ⟨.regO i e, _, _⟩ => pure (i, e)
  | _ => throw .wrongOperandAccess

/-- Exact value of `std::numeric_limits<float>::min()` (smallest positive
normal float, 2^-126) as a double.  Built by the raw constructor so that it
evaluates inside the kernel. -/
def FLT_MIN_D : Rat :=
  ⟨1, 2 ^ 126, by norm_num, Nat.coprime_one_left _⟩

/-- Exact value of `std::numeric_limits<float>::max()` (2^128 - 2^104) as a
double.  Built by the raw constructor so that it evaluates inside the
kernel. -/
def FLT_MAX_D : Rat :=
  ⟨2 ^ 128 - 2 ^ 104, 1, one_ne_zero, Nat.coprime_one_right _⟩

/-- `is_int32`: the literal fits the signed 32-bit range. -/
def is_int32 (x : Int) : Bool :=
  decide (-2147483648 ≤ x) && decide (x ≤ 2147483647)

/-- `is_float`: the code's range test
`x >= std::numeric_limits<float>::min() && x <= std::numeric_limits<float>::max()`.
Note the lower bound is the smallest positive normal float, not the most
negative finite float. -/
def is_float (x : Rat) : Bool :=
  decide (FLT_MIN_D ≤ x) && decide (x ≤ FLT_MAX_D)

/-- `imm2reg`: materialize an immediate into a register of (roughly) the
destination type.  Follows the source case-for-case; the `Imm` payload is
passed destructured (the source reads it out of `v.op().as<Imm>()`). -/
def imm2reg (dst_type : data_type_t) (k : imm_val) : EmitM jit_value_t :=
  match k with
  | .intV value =>
    match dst_type with
    | .f32 => do
        let id ← newId
        pure ⟨.regO id (.loadPool (.poolF32ofInt value)), .f32, .kConst⟩
    | .f64 => do
        let id ← newId
        pure ⟨.regO id (.loadPool (.poolF64ofInt value)), .f64, .kConst⟩
    | _ =>
      if dst_type == .i64 || !(is_int32 value) then do
        let id ← newId
        pure ⟨.regO id (.movAbs value), .i64, .kConst⟩
      else do
        let id ← newId
        pure ⟨.regO id (.movI32 value), dst_type, .kConst⟩
  | .fpV value =>
    if dst_type == .i64 || dst_type == .f64 || !(is_float value) then do
      let id ← newId
      pure ⟨.regO id (.loadPool (.poolF64ofF value)), .f64, .kConst⟩
    else do
      let id ← newId
      pure ⟨.regO id (.loadPool (.poolF32ofF value)), .f32, .kConst⟩

/-- `mem2reg`: load a raw memory operand into a register of its declared
type's storage class (sign-extending for i8/i16, direct moves otherwise).
The switch's `__builtin_unreachable()` default is the error case. -/
def mem2reg (v : jit_value_t) : EmitM jit_value_t :=
  match v.op with
  | .memO m =>
    match v.dtype with
    | .i8 => do
        let id ← newId
        pure ⟨.regO id (.loadE m .i8), .i8, .kMemory⟩
    | .i16 => do
        let id ← newId
        pure ⟨.regO id (.loadE m .i16), .i16, .kMemory⟩
    | .i32 => do
        let id ← newId
        pure ⟨.regO id (.loadE m .i32), .i32, .kMemory⟩
    | .i64 => do
        let id ← newId
        pure ⟨.regO id (.loadE m .i64), .i64, .kMemory⟩
    | .i128 => do
        let id ← newId
        pure ⟨.regO id (.loadE m .i128), .i128, .kMemory⟩
    | .f32 => do
        let id ← newId
        pure ⟨.regO id (.loadE m .f32), .f32, .kMemory⟩
    | .f64 => do
        let id ← newId
        pure ⟨.regO id (.loadE m .f64), .f64, .kMemory⟩
    | _ => throw .unreachableHit
  | _ => throw .wrongOperandAccess

/-- `load_register` (three-argument overload): immediates go through
`imm2reg` toward `dst_type`, memory operands through `mem2reg`, registers
are returned unchanged. -/
def load_register (dst_type : data_type_t) (v : jit_value_t) : EmitM jit_value_t :=
  match v.op with
  | .immO k => imm2reg dst_type k
  | .memO _ => mem2reg v
  | .regO _ _ => pure v

/-- `load_register` (two-argument overload): materialize toward the
operand's own declared type. -/
def load_register_same (v : jit_value_t) : EmitM jit_value_t :=
  load_register v.dtype v

/-- `load_registers`: pick each side's materialization target type — if
exactly one side is an immediate, both targets become the non-immediate
side's declared type; otherwise each side keeps its own — then materialize
both sides. -/
def load_registers (lhs rhs : jit_value_t) : EmitM (jit_value_t × jit_value_t) := do
  let tt : data_type_t × data_type_t :=
    if lhs.op.isImm && !rhs.op.isImm then
      (rhs.dtype, rhs.dtype)
    else if rhs.op.isImm && !lhs.op.isImm then
      (lhs.dtype, lhs.dtype)
    else
      (lhs.dtype, rhs.dtype)
  let l ← load_register tt.1 lhs
  let r ← load_register tt.2 rhs
  pure (l, r)

/-- Modelled from the spec (the definition lives in `common.h`, which is not
part of the provided source): the result `DataKind` of a binary operation is
`Const` only if both operands are `Const`; otherwise `Memory` —
row-dependence is infectious. -/
def dst_kind (lhs rhs : jit_value_t) : data_kind_t :=
  if lhs.dkind == .kConst && rhs.dkind == .kConst then .kConst else .kMemory

/-- `cvt_null_check`: null-check propagation into a conversion is suppressed
when the source type is 8- or 16-bit (no representable null sentinel at that
width). -/
def cvt_null_check (t : data_type_t) : Bool :=
  !(t == .i8 || t == .i16)

/-- `convert`: widen a pair of register-resident operands to a common type
before a binary op, per the promotion matrix.  Mirrors the nested switch of
the source, including which conversion primitive runs, its null-check flag,
and which side(s) change. -/
def convert (lhs rhs : jit_value_t) (null_check : Bool) :
    EmitM (jit_value_t × jit_value_t) :=
  match lhs.dtype with
  | .i8 | .i16 | .i32 =>
    match rhs.dtype with
    | .i8 | .i16 | .i32 => pure (lhs, rhs)
    | .i64 => do
        let (li, le) ← lhs.asReg
        let id ← newId
        pure (⟨.regO id (.cvtE .int32_to_int64 li le
                  (some (null_check && cvt_null_check lhs.dtype))), .i64, lhs.dkind⟩,
              rhs)
    | .f32 => do
        let (li, le) ← lhs.asReg
        let id ← newId
        pure (⟨.regO id (.cvtE .int32_to_float li le
                  (some (null_check && cvt_null_check lhs.dtype))), .f32, lhs.dkind⟩,
              rhs)
    | .f64 => do
        let (li, le) ← lhs.asReg
        let id ← newId
        pure (⟨.regO id (.cvtE .int32_to_double li le
                  (some (null_check && cvt_null_check lhs.dtype))), .f64, lhs.dkind⟩,
              rhs)
    | _ => throw .unreachableHit
  | .i64 =>
    match rhs.dtype with
    | .i8 | .i16 | .i32 => do
        let (ri, re) ← rhs.asReg
        let id ← newId
        pure (lhs,
              ⟨.regO id (.cvtE .int32_to_int64 ri re
                  (some (null_check && cvt_null_check rhs.dtype))), .i64, rhs.dkind⟩)
    | .i64 => pure (lhs, rhs)
    | .f32 => do
        let (li, le) ← lhs.asReg
        let lid ← newId
        let (ri, re) ← rhs.asReg
        let rid ← newId
        pure (⟨.regO lid (.cvtE .int64_to_double li le (some null_check)), .f64, lhs.dkind⟩,
              ⟨.regO rid (.cvtE .float_to_double ri re none), .f64, rhs.dkind⟩)
    | .f64 => do
        let (li, le) ← lhs.asReg
        let id ← newId
        pure (⟨.regO id (.cvtE .int64_to_double li le (some null_check)), .f64, lhs.dkind⟩,
              rhs)
    | _ => throw .unreachableHit
  | .f32 =>
    match rhs.dtype with
    | .i8 | .i16 | .i32 => do
        let (ri, re) ← rhs.asReg
        let id ← newId
        pure (lhs,
              ⟨.regO id (.cvtE .int32_to_float ri re
                  (some (null_check && cvt_null_check rhs.dtype))), .f32, rhs.dkind⟩)
    | .i64 => do
        let (li, le) ← lhs.asReg
        let lid ← newId
        let (ri, re) ← rhs.asReg
        let rid ← newId
        pure (⟨.regO lid (.cvtE .float_to_double li le none), .f64, lhs.dkind⟩,
              ⟨.regO rid (.cvtE .int64_to_double ri re (some null_check)), .f64, rhs.dkind⟩)
    | .f32 => pure (lhs, rhs)
    | .f64 => do
        let (li, le) ← lhs.asReg
        let id ← newId
        pure (⟨.regO id (.cvtE .float_to_double li le none), .f64, lhs.dkind⟩, rhs)
    | _ => throw .unreachableHit
  | .f64 =>
    match rhs.dtype with
    | .i8 | .i16 | .i32 => do
        let (ri, re) ← rhs.asReg
        let id ← newId
        pure (lhs,
              ⟨.regO id (.cvtE .int32_to_double ri re
                  (some (null_check && cvt_null_check rhs.dtype))), .f64, rhs.dkind⟩)
    | .i64 => do
        let (ri, re) ← rhs.asReg
        let id ← newId
        pure (lhs,
              ⟨.regO id (.cvtE .int64_to_double ri re (some null_check)), .f64, rhs.dkind⟩)
    | .f32 => do
        let (ri, re) ← rhs.asReg
        let id ← newId
        pure (lhs, ⟨.regO id (.cvtE .float_to_double ri re none), .f64, rhs.dkind⟩)
    | .f64 => pure (lhs, rhs)
    | _ => throw .unreachableHit
  | .i128 | .string_header | .binary_header | .varchar_header => pure (lhs, rhs)

/-- `neg`: unary negate, dispatched by type to the null-aware primitives
(32-bit-class integers share one primitive; the float primitives take no
null flag). -/
def neg (lhs : jit_value_t) (null_check : Bool) : EmitM jit_value_t := do
  let dt := lhs.dtype
  let dk := lhs.dkind
  match dt with
  | .i8 | .i16 | .i32 => do
      let (li, le) ← lhs.asReg
      let id ← newId
      pure ⟨.regO id (.prim1E .int32_neg li le (some null_check)), dt, dk⟩
  | .i64 => do
      let (li, le) ← lhs.asReg
      let id ← newId
      pure ⟨.regO id (.prim1E .int64_neg li le (some null_check)), dt, dk⟩
  | .f32 => do
      let (li, le) ← lhs.asReg
      let id ← newId
      pure ⟨.regO id (.prim1E .float_neg li le none), dt, dk⟩
  | .f64 => do
      let (li, le) ← lhs.asReg
      let id ← newId
      pure ⟨.regO id (.prim1E .double_neg li le none), dt, dk⟩
  | _ => throw .unreachableHit

/-- `bin_not`: bitwise not, always the 32-bit integer primitive, no type
switch. -/
def bin_not (lhs : jit_value_t) : EmitM jit_value_t := do
  let (li, le) ← lhs.asReg
  let id ← newId
  pure ⟨.regO id (.prim1E .int32_not li le none), lhs.dtype, lhs.dkind⟩

/-- `bin_and`: logical and, always the 32-bit integer primitive; result
keeps the left type and combines kinds via `dst_kind`. -/
def bin_and (lhs rhs : jit_value_t) : EmitM jit_value_t := do
  let dt := lhs.dtype
  let dk := dst_kind lhs rhs
  let (li, le) ← lhs.asReg
  let (ri, re) ← rhs.asReg
  let id ← newId
  pure ⟨.regO id (.prim2E .int32_and li ri le re none), dt, dk⟩

/-- `bin_or`: logical or, always the 32-bit integer primitive. -/
def bin_or (lhs rhs : jit_value_t) : EmitM jit_value_t := do
  let dt := lhs.dtype
  let dk := dst_kind lhs rhs
  let (li, le) ← lhs.asReg
  let (ri, re) ← rhs.asReg
  let id ← newId
  pure ⟨.regO id (.prim2E .int32_or li ri le re none), dt, dk⟩

/-- `cmp_eq`: equality dispatch on the left operand's type; result type is
always `i32`. -/
def cmp_eq (lhs rhs : jit_value_t) : EmitM jit_value_t := do
  let dt := lhs.dtype
  let dk := dst_kind lhs rhs
  let (li, le) ← lhs.asReg
  let (ri, re) ← rhs.asReg
  match dt with
  | .i8 | .i16 | .i32 | .string_header => do
      let id ← newId
      pure ⟨.regO id (.prim2E .int32_eq li ri le re none), .i32, dk⟩
  | .i64 | .binary_header | .varchar_header => do
      let id ← newId
      pure ⟨.regO id (.prim2E .int64_eq li ri le re none), .i32, dk⟩
  | .i128 => do
      let id ← newId
      pure ⟨.regO id (.prim2E .int128_eq li ri le re none), .i32, dk⟩
  | .f32 => do
      let id ← newId
      pure ⟨.regO id (.prim2eps .float_eq_epsilon li ri le re .FLOAT_EPSILON), .i32, dk⟩
  | .f64 => do
      let id ← newId
      pure ⟨.regO id (.prim2eps .double_eq_epsilon li ri le re .DOUBLE_EPSILON), .i32, dk⟩

/-- `cmp_ne`: inequality dispatch, same shape as `cmp_eq`. -/
def cmp_ne (lhs rhs : jit_value_t) : EmitM jit_value_t := do
  let dt := lhs.dtype
  let dk := dst_kind lhs rhs
  let (li, le) ← lhs.asReg
  let (ri, re) ← rhs.asReg
  match dt with
  | .i8 | .i16 | .i32 | .string_header => do
      let id ← newId
      pure ⟨.regO id (.prim2E .int32_ne li ri le re none), .i32, dk⟩
  | .i64 | .binary_header | .varchar_header => do
      let id ← newId
      pure ⟨.regO id (.prim2E .int64_ne li ri le re none), .i32, dk⟩
  | .i128 => do
      let id ← newId
      pure ⟨.regO id (.prim2E .int128_ne li ri le re none), .i32, dk⟩
  | .f32 => do
      let id ← newId
      pure ⟨.regO id (.prim2eps .float_ne_epsilon li ri le re .FLOAT_EPSILON), .i32, dk⟩
  | .f64 => do
      let id ← newId
      pure ⟨.regO id (.prim2eps .double_ne_epsilon li ri le re .DOUBLE_EPSILON), .i32, dk⟩

/-- `cmp_gt`: strictly-greater dispatch.  Integer types call the strict
primitive directly; float types copy both operands into fresh registers and
combine (NOT epsilon-equal) AND (strict greater).  Header and 128-bit types
fall into the `__builtin_unreachable()` default. -/
def cmp_gt (lhs rhs : jit_value_t) (null_check : Bool) : EmitM jit_value_t := do
  let dt := lhs.dtype
  let dk := dst_kind lhs rhs
  match dt with
  | .i8 | .i16 | .i32 => do
      let (li, le) ← lhs.asReg
      let (ri, re) ← rhs.asReg
      let id ← newId
      pure ⟨.regO id (.prim2E .int32_gt li ri le re (some null_check)), .i32, dk⟩
  | .i64 => do
      let (li, le) ← lhs.asReg
      let (ri, re) ← rhs.asReg
      let id ← newId
      pure ⟨.regO id (.prim2E .int64_gt li ri le re (some null_check)), .i32, dk⟩
  | .f32 => do
      let (li, le) ← lhs.asReg
      let (ri, re) ← rhs.asReg
      let l ← newId
      let r ← newId
      let eqid ← newId
      let stid ← newId
      bin_and ⟨.regO eqid (.prim2eps .float_ne_epsilon li ri le re .FLOAT_EPSILON), .i32, dk⟩
              ⟨.regO stid (.prim2E .float_gt l r le re none), .i32, dk⟩
  | .f64 => do
      let (li, le) ← lhs.asReg
      let (ri, re) ← rhs.asReg
      let l ← newId
      let r ← newId
      let eqid ← newId
      let stid ← newId
      bin_and ⟨.regO eqid (.prim2eps .double_ne_epsilon li ri le re .DOUBLE_EPSILON), .i32, dk⟩
              ⟨.regO stid (.prim2E .double_gt l r le re none), .i32, dk⟩
  | _ => throw .unreachableHit

/-- `cmp_ge`: greater-or-equal dispatch; float types combine
(epsilon-equal) OR (strict greater-or-equal) over fresh copies. -/
def cmp_ge (lhs rhs : jit_value_t) (null_check : Bool) : EmitM jit_value_t := do
  let dt := lhs.dtype
  let dk := dst_kind lhs rhs
  match dt with
  | .i8 | .i16 | .i32 => do
      let (li, le) ← lhs.asReg
      let (ri, re) ← rhs.asReg
      let id ← newId
      pure ⟨.regO id (.prim2E .int32_ge li ri le re (some null_check)), .i32, dk⟩
  | .i64 => do
      let (li, le) ← lhs.asReg
      let (ri, re) ← rhs.asReg
      let id ← newId
      pure ⟨.regO id (.prim2E .int64_ge li ri le re (some null_check)), .i32, dk⟩
  | .f32 => do
      let (li, le) ← lhs.asReg
      let (ri, re) ← rhs.asReg
      let l ← newId
      let r ← newId
      let eqid ← newId
      let stid ← newId
      bin_or ⟨.regO eqid (.prim2eps .float_eq_epsilon li ri le re .FLOAT_EPSILON), .i32, dk⟩
             ⟨.regO stid (.prim2E .float_ge l r le re none), .i32, dk⟩
  | .f64 => do
      let (li, le) ← lhs.asReg
      let (ri, re) ← rhs.asReg
      let l ← newId
      let r ← newId
      let eqid ← newId
      let stid ← newId
      bin_or ⟨.regO eqid (.prim2eps .double_eq_epsilon li ri le re .DOUBLE_EPSILON), .i32, dk⟩
             ⟨.regO stid (.prim2E .double_ge l r le re none), .i32, dk⟩
  | _ => throw .unreachableHit

/-- `cmp_lt`: strictly-less dispatch; float types combine
(NOT epsilon-equal) AND (strict less) over fresh copies. -/
def cmp_lt (lhs rhs : jit_value_t) (null_check : Bool) : EmitM jit_value_t := do
  let dt := lhs.dtype
  let dk := dst_kind lhs rhs
  match dt with
  | .i8 | .i16 | .i32 => do
      let (li, le) ← lhs.asReg
      let (ri, re) ← rhs.asReg
      let id ← newId
      pure ⟨.regO id (.prim2E .int32_lt li ri le re (some null_check)), .i32, dk⟩
  | .i64 => do
      let (li, le) ← lhs.asReg
      let (ri, re) ← rhs.asReg
      let id ← newId
      pure ⟨.regO id (.prim2E .int64_lt li ri le re (some null_check)), .i32, dk⟩
  | .f32 => do
      let (li, le) ← lhs.asReg
      let (ri, re) ← rhs.asReg
      let l ← newId
      let r ← newId
      let eqid ← newId
      let stid ← newId
      bin_and ⟨.regO eqid (.prim2eps .float_ne_epsilon li ri le re .FLOAT_EPSILON), .i32, dk⟩
              ⟨.regO stid (.prim2E .float_lt l r le re none), .i32, dk⟩
  | .f64 => do
      let (li, le) ← lhs.asReg
      let (ri, re) ← rhs.asReg
      let l ← newId
      let r ← newId
      let eqid ← newId
      let stid ← newId
      bin_and ⟨.regO eqid (.prim2eps .double_ne_epsilon li ri le re .DOUBLE_EPSILON), .i32, dk⟩
              ⟨.regO stid (.prim2E .double_lt l r le re none), .i32, dk⟩
  | _ => throw .unreachableHit

/-- `cmp_le`: less-or-equal dispatch; float types combine
(epsilon-equal) OR (strict less-or-equal) over fresh copies. -/
def cmp_le (lhs rhs : jit_value_t) (null_check : Bool) : EmitM jit_value_t := do
  let dt := lhs.dtype
  let dk := dst_kind lhs rhs
  match dt with
  | .i8 | .i16 | .i32 => do
      let (li, le) ← lhs.asReg
      let (ri, re) ← rhs.asReg
      let id ← newId
      pure ⟨.regO id (.prim2E .int32_le li ri le re (some null_check)), .i32, dk⟩
  | .i64 => do
      let (li, le) ← lhs.asReg
      let (ri, re) ← rhs.asReg
      let id ← newId
      pure ⟨.regO id (.prim2E .int64_le li ri le re (some null_check)), .i32, dk⟩
  | .f32 => do
      let (li, le) ← lhs.asReg
      let (ri, re) ← rhs.asReg
      let l ← newId
      let r ← newId
      let eqid ← newId
      let stid ← newId
      bin_or ⟨.regO eqid (.prim2eps .float_eq_epsilon li ri le re .FLOAT_EPSILON), .i32, dk⟩
             ⟨.regO stid (.prim2E .float_le l r le re none), .i32, dk⟩
  | .f64 => do
      let (li, le) ← lhs.asReg
      let (ri, re) ← rhs.asReg
      let l ← newId
      let r ← newId
      let eqid ← newId
      let stid ← newId
      bin_or ⟨.regO eqid (.prim2eps .double_eq_epsilon li ri le re .DOUBLE_EPSILON), .i32, dk⟩
             ⟨.regO stid (.prim2E .double_le l r le re none), .i32, dk⟩
  | _ => throw .unreachableHit

/-- `add`: arithmetic dispatch (32-bit-class int / 64-bit int / f32 / f64);
result keeps the promoted operand type. -/
def add (lhs rhs : jit_value_t) (null_check : Bool) : EmitM jit_value_t := do
  let dt := lhs.dtype
  let dk := dst_kind lhs rhs
  let (li, le) ← lhs.asReg
  let (ri, re) ← rhs.asReg
  match dt with
  | .i8 | .i16 | .i32 => do
      let id ← newId
      pure ⟨.regO id (.prim2E .int32_add li ri le re (some null_check)), dt, dk⟩
  | .i64 => do
      let id ← newId
      pure ⟨.regO id (.prim2E .int64_add li ri le re (some null_check)), dt, dk⟩
  | .f32 => do
      let id ← newId
      pure ⟨.regO id (.prim2E .float_add li ri le re none), dt, dk⟩
  | .f64 => do
      let id ← newId
      pure ⟨.regO id (.prim2E .double_add li ri le re none), dt, dk⟩
  | _ => throw .unreachableHit

/-- `sub`: like `add`, with the subtraction primitives. -/
def sub (lhs rhs : jit_value_t) (null_check : Bool) : EmitM jit_value_t := do
  let dt := lhs.dtype
  let dk := dst_kind lhs rhs
  let (li, le) ← lhs.asReg
  let (ri, re) ← rhs.asReg
  match dt with
  | .i8 | .i16 | .i32 => do
      let id ← newId
      pure ⟨.regO id (.prim2E .int32_sub li ri le re (some null_check)), dt, dk⟩
  | .i64 => do
      let id ← newId
      pure ⟨.regO id (.prim2E .int64_sub li ri le re (some null_check)), dt, dk⟩
  | .f32 => do
      let id ← newId
      pure ⟨.regO id (.prim2E .float_sub li ri le re none), dt, dk⟩
  | .f64 => do
      let id ← newId
      pure ⟨.regO id (.prim2E .double_sub li ri le re none), dt, dk⟩
  | _ => throw .unreachableHit

/-- `mul`: like `add`, with the multiplication primitives. -/
def mul (lhs rhs : jit_value_t) (null_check : Bool) : EmitM jit_value_t := do
  let dt := lhs.dtype
  let dk := dst_kind lhs rhs
  let (li, le) ← lhs.asReg
  let (ri, re) ← rhs.asReg
  match dt with
  | .i8 | .i16 | .i32 => do
      let id ← newId
      pure ⟨.regO id (.prim2E .int32_mul li ri le re (some null_check)), dt, dk⟩
  | .i64 => do
      let id ← newId
      pure ⟨.regO id (.prim2E .int64_mul li ri le re (some null_check)), dt, dk⟩
  | .f32 => do
      let id ← newId
      pure ⟨.regO id (.prim2E .float_mul li ri le re none), dt, dk⟩
  | .f64 => do
      let id ← newId
      pure ⟨.regO id (.prim2E .double_mul li ri le re none), dt, dk⟩
  | _ => throw .unreachableHit

/-- `div`: like `add`, with the division primitives. -/
def div (lhs rhs : jit_value_t) (null_check : Bool) : EmitM jit_value_t := do
  let dt := lhs.dtype
  let dk := dst_kind lhs rhs
  let (li, le) ← lhs.asReg
  let (ri, re) ← rhs.asReg
  match dt with
  | .i8 | .i16 | .i32 => do
      let id ← newId
      pure ⟨.regO id (.prim2E .int32_div li ri le re (some null_check)), dt, dk⟩
  | .i64 => do
      let id ← newId
      pure ⟨.regO id (.prim2E .int64_div li ri le re (some null_check)), dt, dk⟩
  | .f32 => do
      let id ← newId
      pure ⟨.regO id (.prim2E .float_div li ri le re none), dt, dk⟩
  | .f64 => do
      let id ← newId
      pure ⟨.regO id (.prim2E .double_div li ri le re none), dt, dk⟩
  | _ => throw .unreachableHit

/-- `read_vars_mem`: a scalar variable read — a memory operand into the
flat 8-byte-stride variable table, sized to the requested type. -/
def read_vars_mem (t : data_type_t) (idx : Int) : jit_value_t :=
  ⟨.memO (.varsMem idx (1 <<< type_shift t)), t, .kMemory⟩

/-- `read_mem_varsize` (emission side): the register-allocation footprint and
the resulting operand of the string/binary column read.  The emitted
computation (two offset loads, two subtractions, conditional header re-read)
is summarized by the `varsizeLoad` expression node; its value semantics is
`read_mem_varsize_sem` below.  The result register is the `length` register
(the second of the five allocated); the result type is `i32` for a 4-byte
header and `i64` for an 8-byte header. -/
def read_mem_varsize (header_size : Nat) (column_idx : Int) : EmitM jit_value_t := do
  let _offset ← newId
  let length ← newId
  let _varsize_aux_address ← newId
  let _next_input_index ← newId
  let _column_address ← newId
  if header_size == 4 then
    pure ⟨.regO length (.varsizeLoad 4 column_idx), .i32, .kMemory⟩
  else
    pure ⟨.regO length (.varsizeLoad header_size column_idx), .i64, .kMemory⟩

/-- `read_mem_varchar_header`: the varchar aux-vector header read — header
slot address `aux_base[column] + (row << type_shift(i128))`; returns the raw
header word as an `i64` memory-kind register. -/
def read_mem_varchar_header (column_idx : Int) : EmitM jit_value_t := do
  let _varsize_aux_address ← newId
  let _header_offset ← newId
  let header ← newId
  pure ⟨.regO header (.varcharHeaderLoad column_idx), .i64, .kMemory⟩

/-- `read_mem`: column read dispatch — varchar header path, string/binary
varsize path (header sizes 4 and 8), or the fixed-width path
(index-scaled addressing for widths up to 8 bytes, explicit shifted offset
beyond). -/
def read_mem (t : data_type_t) (column_idx : Int) : EmitM jit_value_t := do
  if t == .varchar_header then
    read_mem_varchar_header column_idx
  else
    let header_size : Nat :=
      match t with
      | .string_header => 4
      | .binary_header => 8
      | _ => 0
    if header_size ≠ 0 then
      read_mem_varsize header_size column_idx
    else do
      let _column_address ← newId
      let shift := type_shift t
      let type_size := 1 <<< shift
      if type_size ≤ 8 then
        pure ⟨.memO (.colMem column_idx shift type_size), t, .kMemory⟩
      else do
        let _offset ← newId
        pure ⟨.memO (.colMemWide column_idx type_size), t, .kMemory⟩

/-- `read_imm`: an immediate instruction — integer widths carry
`ipayload.lo` as a `Const`-kind immediate, the 128-bit type copies the
sixteen payload bytes into the constant pool and yields a `Memory`-kind
memory operand, floats carry `dpayload` as a `Const`-kind immediate.
A header type tag hits the `__builtin_unreachable()` default. -/
def read_imm (instr : instruction_t) : EmitM jit_value_t :=
  match instr.options with
  | .i8 | .i16 | .i32 | .i64 =>
      pure ⟨.immO (.intV instr.ipayload_lo), instr.options, .kConst⟩
  | .i128 =>
      pure ⟨.memO (.pool16 instr.ipayload_lo instr.ipayload_hi), .i128, .kMemory⟩
  | .f32 | .f64 =>
      pure ⟨.immO (.fpV instr.dpayload), instr.options, .kConst⟩
  | _ => throw .unreachableHit

/-- `ZoneStack::pop()`: removes the most recently appended value.  The
evaluation stack is modelled head-first (head = top).  Popping an empty
stack is an unchecked assertion in asmjit — undefined behavior — surfaced
here as `emptyStackPop`. -/
def pop (values : List jit_value_t) : EmitM (jit_value_t × List jit_value_t) :=
  match values with
  | [] => throw .emptyStackPop
  | v :: rest => pure (v, rest)

/-- `get_argument`: pop one value and materialize it to its own type. -/
def get_argument (values : List jit_value_t) :
    EmitM (jit_value_t × List jit_value_t) := do
  let (arg, rest) ← pop values
  let r ← load_register_same arg
  pure (r, rest)

/-- `get_arguments`: pop `lhs` first, then `rhs`, materialize the pair
(`load_registers`) and widen it to a common type (`convert`). -/
def get_arguments (values : List jit_value_t) (null_check : Bool) :
    EmitM ((jit_value_t × jit_value_t) × List jit_value_t) := do
  let (lhs, s1) ← pop values
  let (rhs, s2) ← pop s1
  let (l, r) ← load_registers lhs rhs
  let cvt ← convert l r null_check
  pure (cvt, s2)

/-- `emit_bin_op`: pop, materialize and convert two operands, dispatch on
the opcode, push the result.  An opcode that is not a binary operator hits
the `__builtin_unreachable()` default. -/
def emit_bin_op (instr : instruction_t) (values : List jit_value_t)
    (null_check : Bool) : EmitM (List jit_value_t) := do
  let (args, rest) ← get_arguments values null_check
  let lhs := args.1
  let rhs := args.2
  match instr.opcode with
  | .And => do let v ← bin_and lhs rhs; pure (v :: rest)
  | .Or => do let v ← bin_or lhs rhs; pure (v :: rest)
  | .Eq => do let v ← cmp_eq lhs rhs; pure (v :: rest)
  | .Ne => do let v ← cmp_ne lhs rhs; pure (v :: rest)
  | .Gt => do let v ← cmp_gt lhs rhs null_check; pure (v :: rest)
  | .Ge => do let v ← cmp_ge lhs rhs null_check; pure (v :: rest)
  | .Lt => do let v ← cmp_lt lhs rhs null_check; pure (v :: rest)
  | .Le => do let v ← cmp_le lhs rhs null_check; pure (v :: rest)
  | .Add => do let v ← add lhs rhs null_check; pure (v :: rest)
  | .Sub => do let v ← sub lhs rhs null_check; pure (v :: rest)
  | .Mul => do let v ← mul lhs rhs null_check; pure (v :: rest)
  | .Div => do let v ← div lhs rhs null_check; pure (v :: rest)
  | _ => throw .unreachableHit

/-- `static_cast<int32_t>` of a 64-bit payload. -/
def int32_cast (x : Int) : Int :=
  (x + 2 ^ 31) % 2 ^ 32 - 2 ^ 31

/-- `emit_code`: the single-pass instruction walker.  `Inv` and `Ret` stop
(the `Inv` case carries the source's `todo: throw exception` comment — it
currently behaves exactly like `Ret`); leaf opcodes push operands; `Neg` /
`Not` pop-apply-push; every other opcode is treated as a binary operator. -/
def emit_code (istream : List instruction_t) (values : List jit_value_t)
    (null_check : Bool) : EmitM (List jit_value_t) :=
  match istream with
  | [] => pure values
  | instr :: rest =>
    match instr.opcode with
    | .Inv => pure values
    | .Ret => pure values
    | .Var =>
        emit_code rest
          (read_vars_mem instr.options (int32_cast instr.ipayload_lo) :: values)
          null_check
    | .Mem => do
        let v ← read_mem instr.options (int32_cast instr.ipayload_lo)
        emit_code rest (v :: values) null_check
    | .Imm => do
        let v ← read_imm instr
        emit_code rest (v :: values) null_check
    | .Neg => do
        let (a, s) ← get_argument values
        let v ← neg a null_check
        emit_code rest (v :: s) null_check
    | .Not => do
        let (a, s) ← get_argument values
        let v ← bin_not a
        emit_code rest (v :: s) null_check
    | _ => do
        let s ← emit_bin_op instr values null_check
        emit_code rest s null_check

/-- Two's-complement reduction to a signed 32-bit value (the value seen in a
32-bit register view, `Gp::r32()`). -/
def wrap32 (x : Int) : Int :=
  (x + 2 ^ 31) % 2 ^ 32 - 2 ^ 31

/-- Two's-complement reduction to a signed 64-bit value. -/
def wrap64 (x : Int) : Int :=
  (x + 2 ^ 63) % 2 ^ 64 - 2 ^ 63

/-- The run-time outcome of the code `read_mem_varsize` emits for one row:
the value left in the `length` register, the operand type, and whether the
data vector was touched (the header re-read executed). -/
structure varsize_result where
  value : Int
  rtype : data_type_t
  touched_data : Bool
deriving DecidableEq, Repr

/-- Value semantics of the code emitted by `read_mem_varsize`, mirrored
step by step: load `offset = offsets[row]` and `offsets[row+1]`, subtract
(64-bit register arithmetic), subtract `header_size`; if the 64-bit result
is non-zero it is the answer and the data vector is untouched; if it is
zero, re-read the `header_size`-byte header word at
`data_vector_base[column] + offset` (`data` maps a data-vector offset to
the raw header word stored there).  The result is viewed through `r32` when
`header_size == 4`, as a full 64-bit register otherwise. -/
def read_mem_varsize_sem (header_size : Nat) (offsets : Nat → Int)
    (data : Int → Int) (row : Nat) : varsize_result :=
  let offset := offsets row
  let length := wrap64 (wrap64 (offsets (row + 1) - offset) - header_size)
  if length ≠ 0 then
    { value := if header_size = 4 then wrap32 length else length
      rtype := if header_size = 4 then .i32 else .i64
      touched_data := false }
  else
    { value := if header_size = 4 then wrap32 (data offset) else wrap64 (data offset)
      rtype := if header_size = 4 then .i32 else .i64
      touched_data := true }

/-- Modelled from the spec: abstract behavior of the external epsilon-
tolerant float comparison primitives (`impl/x86.h`, out of scope).  Width-
separated boolean tests over an exact-rational stand-in for float values;
the `ne` primitives are the negations of the `eq` primitives. -/
structure float_sem where
  feq32 : Rat → Rat → Bool
  fgt32 : Rat → Rat → Bool
  fge32 : Rat → Rat → Bool
  flt32 : Rat → Rat → Bool
  fle32 : Rat → Rat → Bool
  feq64 : Rat → Rat → Bool
  fgt64 : Rat → Rat → Bool
  fge64 : Rat → Rat → Bool
  flt64 : Rat → Rat → Bool
  fle64 : Rat → Rat → Bool

/-- Evaluation of an emitted boolean comparison expression under the
spec-modelled primitive semantics `s`, with `fv` assigning a float value to
each operand subexpression (register copies carry the copied expression, so
a copy evaluates to the same value as its source).  `int32_and`/`int32_or`
evaluate componentwise; nodes outside the comparison fragment evaluate to
`false`. -/
def eval_cmp_expr (s : float_sem) (fv : expr → Rat) : expr → Bool
  | .prim2E .int32_and _ _ a b _ => eval_cmp_expr s fv a && eval_cmp_expr s fv b
  | .prim2E .int32_or _ _ a b _ => eval_cmp_expr s fv a || eval_cmp_expr s fv b
  | .prim2eps .float_eq_epsilon _ _ a b _ => s.feq32 (fv a) (fv b)
  | .prim2eps .float_ne_epsilon _ _ a b _ => !(s.feq32 (fv a) (fv b))
  | .prim2eps .double_eq_epsilon _ _ a b _ => s.feq64 (fv a) (fv b)
  | .prim2eps .double_ne_epsilon _ _ a b _ => !(s.feq64 (fv a) (fv b))
  | .prim2E .float_gt _ _ a b _ => s.fgt32 (fv a) (fv b)
  | .prim2E .float_ge _ _ a b _ => s.fge32 (fv a) (fv b)
  | .prim2E .float_lt _ _ a b _ => s.flt32 (fv a) (fv b)
  | .prim2E .float_le _ _ a b _ => s.fle32 (fv a) (fv b)
  | .prim2E .double_gt _ _ a b _ => s.fgt64 (fv a) (fv b)
  | .prim2E .double_ge _ _ a b _ => s.fge64 (fv a) (fv b)
  | .prim2E .double_lt _ _ a b _ => s.flt64 (fv a) (fv b)
  | .prim2E .double_le _ _ a b _ => s.fle64 (fv a) (fv b)
  | _ => false

/-- A value already in the signed 32-bit range is fixed by `wrap32`. -/
theorem wrap32_eq_self (x : Int) (h1 : -2 ^ 31 ≤ x) (h2 : x < 2 ^ 31) :
    wrap32 x = x := by
  unfold wrap32
  omega

/-- A value already in the signed 64-bit range is fixed by `wrap64`. -/
theorem wrap64_eq_self (x : Int) (h1 : -2 ^ 63 ≤ x) (h2 : x < 2 ^ 63) :
    wrap64 x = x := by
  unfold wrap64
  omega

/-- The offsets vector of the spec's worked string-column example:
`[0, 4, 4, 10]`. -/
def exOffsets : Nat → Int :=
  fun n => ([0, 4, 4, 10] : List Int).getD n 0

/-- The data vector of the spec's worked example: the 4-byte header word
`0xFFFFFFFF` stored at offset 4, zero elsewhere. -/
def exData : Int → Int :=
  fun o => if o = 4 then 4294967295 else 0

/-- C1 (amended): for a string/binary column read with header size `h`
(4 or 8) over in-range offsets, the emitted code computes
`length = offsets[row+1] - offsets[row] - h`; a non-zero length is the final
result with no data-vector load; a zero length is replaced by the
`h`-sized header word re-read from `data_vector_base[column] + offsets[row]`
(sign-interpreted at the register width used); the result type is `i32` for
`h = 4` and `i64` for `h = 8`.  (In the spec's worked example
`[0, 4, 4, 10]`, row 0 — not row 1 — is the zero-length row that re-reads
the header, at offset 0; row 1 computes length `-4` and returns it directly;
row 2 returns 2 directly.) -/
theorem read_mem_varsize_spec (header_size : Nat) (offsets : Nat → Int)
    (data : Int → Int) (row : Nat)
    (hh : header_size = 4 ∨ header_size = 8)
    (h0 : 0 ≤ offsets row) (h1 : offsets row < 2 ^ 30)
    (h2 : 0 ≤ offsets (row + 1)) (h3 : offsets (row + 1) < 2 ^ 30) :
    (offsets (row + 1) - offsets row - header_size ≠ 0 →
      read_mem_varsize_sem header_size offsets data row =
        ⟨offsets (row + 1) - offsets row - header_size,
         if header_size = 4 then .i32 else .i64, false⟩)
    ∧ (offsets (row + 1) - offsets row - header_size = 0 →
      read_mem_varsize_sem header_size offsets data row =
        ⟨if header_size = 4 then wrap32 (data (offsets row))
          else wrap64 (data (offsets row)),
         if header_size = 4 then .i32 else .i64, true⟩) := by
  rcases hh with rfl | rfl
  · have hd : wrap64 (offsets (row + 1) - offsets row)
        = offsets (row + 1) - offsets row := by
      unfold wrap64; omega
    have hL : wrap64 (offsets (row + 1) - offsets row - ((4 : Nat) : Int))
        = offsets (row + 1) - offsets row - ((4 : Nat) : Int) := by
      unfold wrap64; omega
    have hw : wrap32 (offsets (row + 1) - offsets row - ((4 : Nat) : Int))
        = offsets (row + 1) - offsets row - ((4 : Nat) : Int) := by
      unfold wrap32; omega
    constructor
    · intro hne
      simp only [read_mem_varsize_sem, hd, hL]
      rw [if_pos hne]
      simp only [reduceIte, hw]
    · intro heq
      simp only [read_mem_varsize_sem, hd, heq]
      rw [if_neg (by decide : ¬(wrap64 0 ≠ 0))]
  · have hd : wrap64 (offsets (row + 1) - offsets row)
        = offsets (row + 1) - offsets row := by
      unfold wrap64; omega
    have hL : wrap64 (offsets (row + 1) - offsets row - ((8 : Nat) : Int))
        = offsets (row + 1) - offsets row - ((8 : Nat) : Int) := by
      unfold wrap64; omega
    constructor
    · intro hne
      simp only [read_mem_varsize_sem, hd, hL]
      rw [if_pos hne]
      rfl
    · intro heq
      simp only [read_mem_varsize_sem, hd, heq]
      rw [if_neg (by decide : ¬(wrap64 0 ≠ 0))]

/-- C1 witness: row 2 of the example offsets `[0, 4, 4, 10]` with header
size 4 yields length 2 directly, type `i32`, data vector untouched. -/
theorem read_mem_varsize_spec_witness :
    read_mem_varsize_sem 4 exOffsets exData 2 = ⟨2, .i32, false⟩ :=
  ((read_mem_varsize_spec 4 exOffsets exData 2 (Or.inl rfl)
      (by decide) (by decide) (by decide) (by decide)).1 (by decide)).trans
    (by decide)

/-- C1 counterexample: in the spec's worked example, row 1 (offsets 4 and 4,
header size 4) computes length `4 - 4 - 4 = -4`, which is non-zero, so the
code returns `-4` directly and never re-reads the data-vector header word
(whose sign-interpreted value there is `-1`); the claim says row 1 reports
the re-read header word. -/
theorem read_mem_varsize_example_row1 :
    read_mem_varsize_sem 4 exOffsets exData 1 = ⟨-4, .i32, false⟩
    ∧ wrap32 (exData (exOffsets 1)) = -1
    ∧ ((-4 : Int) ≠ -1) :=
  ⟨by decide, by decide, by decide⟩

/-- C2 (amended): `get_arguments` pops the left-hand operand first — the
first value popped from the evaluation stack is the *left*-hand operand of
the dispatched operation and the second-popped is the right-hand operand;
hence a stream that pushes `A`, pushes `B`, then applies a non-commutative
operator dispatches `B op A` (`B` as left-hand side). -/
theorem bin_op_pop_order (a b : Int) :
    (emit_code [⟨.Imm, .i64, a, 0, 0⟩, ⟨.Imm, .i64, b, 0, 0⟩,
        ⟨.Sub, .i64, 0, 0, 0⟩] [] true).run 0
      = .ok ([⟨.regO 2 (.prim2E .int64_sub 0 1 (.movAbs b) (.movAbs a) (some true)),
              .i64, .kConst⟩], 3)
    ∧ (emit_code [⟨.Imm, .i64, a, 0, 0⟩, ⟨.Imm, .i64, b, 0, 0⟩,
        ⟨.Div, .i64, 0, 0, 0⟩] [] true).run 0
      = .ok ([⟨.regO 2 (.prim2E .int64_div 0 1 (.movAbs b) (.movAbs a) (some true)),
              .i64, .kConst⟩], 3)
    ∧ (emit_code [⟨.Imm, .i64, a, 0, 0⟩, ⟨.Imm, .i64, b, 0, 0⟩,
        ⟨.Lt, .i64, 0, 0, 0⟩] [] true).run 0
      = .ok ([⟨.regO 2 (.prim2E .int64_lt 0 1 (.movAbs b) (.movAbs a) (some true)),
              .i32, .kConst⟩], 3) :=
  ⟨rfl, rfl, rfl⟩

/-- C2 counterexample: pushing 5 then 3 then `Sub` dispatches `int64_sub`
with the const 3 (the first-popped value) in the left-hand slot and const 5
in the right-hand slot — not `5 - 3` as the claim requires. -/
theorem sub_pops_first_as_lhs_cex :
    (emit_code [⟨.Imm, .i64, 5, 0, 0⟩, ⟨.Imm, .i64, 3, 0, 0⟩,
        ⟨.Sub, .i64, 0, 0, 0⟩] [] true).run 0
      = .ok ([⟨.regO 2 (.prim2E .int64_sub 0 1 (.movAbs 3) (.movAbs 5) (some true)),
              .i64, .kConst⟩], 3)
    ∧ (expr.movAbs 3 ≠ expr.movAbs 5) :=
  ⟨rfl, by decide⟩

/-- C9: a binary opcode with an empty (or one-element) stack, or a unary
opcode with an empty stack, drives `ZoneStack::pop()` into an unchecked pop
of an empty stack — undefined behavior (`emptyStackPop` in this model), not
a detected-and-reported `StackUnderflow` error: the code has no underflow
check and no error channel. -/
theorem emit_code_stack_underflow_ub :
    (emit_code [⟨.Add, .i64, 0, 0, 0⟩] [] true).run 0 = .error .emptyStackPop
    ∧ (emit_code [⟨.Neg, .i64, 0, 0, 0⟩] [] true).run 0 = .error .emptyStackPop
    ∧ (emit_code [⟨.Imm, .i64, 5, 0, 0⟩, ⟨.Sub, .i64, 0, 0, 0⟩] [] true).run 0
      = .error .emptyStackPop :=
  ⟨rfl, rfl, rfl⟩

/-- C10: a 128-bit immediate instruction yields a `Memory`-kind operand — a
memory reference to the 16-byte constant-pool copy of its payload — while
every 8/16/32/64-bit integer and float immediate yields a `Const`-kind
immediate operand; and the `dst_kind` combinator (Const only if both Const)
makes any binary result with a `Memory`-kind operand `Memory`-kind, so an
expression containing a 128-bit literal is classified as row-dependent. -/
theorem read_imm_kind_classification (lo hi : Int) (d : Rat) (c : Nat)
    (o : operand) (t : data_type_t) (v : jit_value_t) :
    (read_imm ⟨.Imm, .i128, lo, hi, d⟩).run c
      = .ok (⟨.memO (.pool16 lo hi), .i128, .kMemory⟩, c)
    ∧ (read_imm ⟨.Imm, .i8, lo, hi, d⟩).run c
      = .ok (⟨.immO (.intV lo), .i8, .kConst⟩, c)
    ∧ (read_imm ⟨.Imm, .i16, lo, hi, d⟩).run c
      = .ok (⟨.immO (.intV lo), .i16, .kConst⟩, c)
    ∧ (read_imm ⟨.Imm, .i32, lo, hi, d⟩).run c
      = .ok (⟨.immO (.intV lo), .i32, .kConst⟩, c)
    ∧ (read_imm ⟨.Imm, .i64, lo, hi, d⟩).run c
      = .ok (⟨.immO (.intV lo), .i64, .kConst⟩, c)
    ∧ (read_imm ⟨.Imm, .f32, lo, hi, d⟩).run c
      = .ok (⟨.immO (.fpV d), .f32, .kConst⟩, c)
    ∧ (read_imm ⟨.Imm, .f64, lo, hi, d⟩).run c
      = .ok (⟨.immO (.fpV d), .f64, .kConst⟩, c)
    ∧ dst_kind ⟨o, t, .kMemory⟩ v = .kMemory
    ∧ dst_kind v ⟨o, t, .kMemory⟩ = .kMemory := by
  refine ⟨rfl, rfl, rfl, rfl, rfl, rfl, rfl, rfl, ?_⟩
  rcases v with ⟨vo, vt, vk⟩
  cases vk <;> rfl

/-- C3 counterexample: converting an `i64` operand paired with an `f32`
operand does not convert the integer to `f32` and leave the float alone —
both sides are converted to `f64` (`int64_to_double` and
`float_to_double`). -/
theorem convert_i64_f32_cex :
    (convert ⟨.regO 0 (.movAbs 1), .i64, .kMemory⟩
             ⟨.regO 1 (.loadE (.colMem 0 2 4) .f32), .f32, .kMemory⟩ true).run 2
      = .ok ((⟨.regO 2 (.cvtE .int64_to_double 0 (.movAbs 1) (some true)),
              .f64, .kMemory⟩,
             ⟨.regO 3 (.cvtE .float_to_double 1 (.loadE (.colMem 0 2 4) .f32) none),
              .f64, .kMemory⟩), 4)
    ∧ (data_type_t.f64 ≠ data_type_t.f32) :=
  ⟨rfl, by decide⟩

/-- C3 (amended): in a mixed integer/float pair reaching `convert`, an
8/16/32-bit integer converts to the float side's width and the float side
is unchanged, and `i64` paired with `f64` converts the integer to `f64`
with the float unchanged; but `i64` paired with `f32` (either order)
converts *both* sides to `f64`.  The common result tier is the wider of the
two inputs except for the `i64`/`f32` pair, which lands in `f64`. -/
theorem convert_mixed_tier_rules (i j : Nat) (e1 e2 : expr)
    (k1 k2 : data_kind_t) (nc : Bool) (c : Nat) :
    ((convert ⟨.regO i e1, .i8, k1⟩ ⟨.regO j e2, .f32, k2⟩ nc).run c
      = .ok ((⟨.regO c (.cvtE .int32_to_float i e1
                (some (nc && cvt_null_check .i8))), .f32, k1⟩,
              ⟨.regO j e2, .f32, k2⟩), c + 1))
    ∧ ((convert ⟨.regO i e1, .i16, k1⟩ ⟨.regO j e2, .f32, k2⟩ nc).run c
      = .ok ((⟨.regO c (.cvtE .int32_to_float i e1
                (some (nc && cvt_null_check .i16))), .f32, k1⟩,
              ⟨.regO j e2, .f32, k2⟩), c + 1))
    ∧ ((convert ⟨.regO i e1, .i32, k1⟩ ⟨.regO j e2, .f32, k2⟩ nc).run c
      = .ok ((⟨.regO c (.cvtE .int32_to_float i e1
                (some (nc && cvt_null_check .i32))), .f32, k1⟩,
              ⟨.regO j e2, .f32, k2⟩), c + 1))
    ∧ ((convert ⟨.regO i e1, .i8, k1⟩ ⟨.regO j e2, .f64, k2⟩ nc).run c
      = .ok ((⟨.regO c (.cvtE .int32_to_double i e1
                (some (nc && cvt_null_check .i8))), .f64, k1⟩,
              ⟨.regO j e2, .f64, k2⟩), c + 1))
    ∧ ((convert ⟨.regO i e1, .i16, k1⟩ ⟨.regO j e2, .f64, k2⟩ nc).run c
      = .ok ((⟨.regO c (.cvtE .int32_to_double i e1
                (some (nc && cvt_null_check .i16))), .f64, k1⟩,
              ⟨.regO j e2, .f64, k2⟩), c + 1))
    ∧ ((convert ⟨.regO i e1, .i32, k1⟩ ⟨.regO j e2, .f64, k2⟩ nc).run c
      = .ok ((⟨.regO c (.cvtE .int32_to_double i e1
                (some (nc && cvt_null_check .i32))), .f64, k1⟩,
              ⟨.regO j e2, .f64, k2⟩), c + 1))
    ∧ ((convert ⟨.regO i e1, .f32, k1⟩ ⟨.regO j e2, .i8, k2⟩ nc).run c
      = .ok ((⟨.regO i e1, .f32, k1⟩,
              ⟨.regO c (.cvtE .int32_to_float j e2
                (some (nc && cvt_null_check .i8))), .f32, k2⟩), c + 1))
    ∧ ((convert ⟨.regO i e1, .f32, k1⟩ ⟨.regO j e2, .i16, k2⟩ nc).run c
      = .ok ((⟨.regO i e1, .f32, k1⟩,
              ⟨.regO c (.cvtE .int32_to_float j e2
                (some (nc && cvt_null_check .i16))), .f32, k2⟩), c + 1))
    ∧ ((convert ⟨.regO i e1, .f32, k1⟩ ⟨.regO j e2, .i32, k2⟩ nc).run c
      = .ok ((⟨.regO i e1, .f32, k1⟩,
              ⟨.regO c (.cvtE .int32_to_float j e2
                (some (nc && cvt_null_check .i32))), .f32, k2⟩), c + 1))
    ∧ ((convert ⟨.regO i e1, .f64, k1⟩ ⟨.regO j e2, .i8, k2⟩ nc).run c
      = .ok ((⟨.regO i e1, .f64, k1⟩,
              ⟨.regO c (.cvtE .int32_to_double j e2
                (some (nc && cvt_null_check .i8))), .f64, k2⟩), c + 1))
    ∧ ((convert ⟨.regO i e1, .f64, k1⟩ ⟨.regO j e2, .i16, k2⟩ nc).run c
      = .ok ((⟨.regO i e1, .f64, k1⟩,
              ⟨.regO c (.cvtE .int32_to_double j e2
                (some (nc && cvt_null_check .i16))), .f64, k2⟩), c + 1))
    ∧ ((convert ⟨.regO i e1, .f64, k1⟩ ⟨.regO j e2, .i32, k2⟩ nc).run c
      = .ok ((⟨.regO i e1, .f64, k1⟩,
              ⟨.regO c (.cvtE .int32_to_double j e2
                (some (nc && cvt_null_check .i32))), .f64, k2⟩), c + 1))
    ∧ ((convert ⟨.regO i e1, .i64, k1⟩ ⟨.regO j e2, .f64, k2⟩ nc).run c
      = .ok ((⟨.regO c (.cvtE .int64_to_double i e1 (some nc)), .f64, k1⟩,
              ⟨.regO j e2, .f64, k2⟩), c + 1))
    ∧ ((convert ⟨.regO i e1, .f64, k1⟩ ⟨.regO j e2, .i64, k2⟩ nc).run c
      = .ok ((⟨.regO i e1, .f64, k1⟩,
              ⟨.regO c (.cvtE .int64_to_double j e2 (some nc)), .f64, k2⟩), c + 1))
    ∧ ((convert ⟨.regO i e1, .i64, k1⟩ ⟨.regO j e2, .f32, k2⟩ nc).run c
      = .ok ((⟨.regO c (.cvtE .int64_to_double i e1 (some nc)), .f64, k1⟩,
              ⟨.regO (c + 1) (.cvtE .float_to_double j e2 none), .f64, k2⟩), c + 2))
    ∧ ((convert ⟨.regO i e1, .f32, k1⟩ ⟨.regO j e2, .i64, k2⟩ nc).run c
      = .ok ((⟨.regO c (.cvtE .float_to_double i e1 none), .f64, k1⟩,
              ⟨.regO (c + 1) (.cvtE .int64_to_double j e2 (some nc)), .f64, k2⟩), c + 2)) :=
  ⟨rfl, rfl, rfl, rfl, rfl, rfl, rfl, rfl, rfl, rfl, rfl, rfl, rfl, rfl, rfl, rfl⟩

/-- A trivial concrete instance of the primitive semantics, for
instantiation. -/
def triv_float_sem : float_sem :=
  ⟨fun _ _ => true, fun _ _ => false, fun _ _ => true, fun _ _ => false,
   fun _ _ => true, fun _ _ => true, fun _ _ => false, fun _ _ => true,
   fun _ _ => false, fun _ _ => true⟩

/-- A trivial operand valuation, for instantiation. -/
def triv_fv : expr → Rat := fun _ => 0

/-- C4: for float operands, `gt`/`lt` emit
(NOT epsilon-equal) AND (strict primitive) and `ge`/`le` emit
(epsilon-equal) OR (strict primitive), at both widths; both operands are
first copied into the fresh registers `c`, `c+1` (distinct from the operand
registers `i`, `j`), the epsilon test reads the original registers and the
strict test reads the copies; consequently, under any primitive semantics,
operands the epsilon test calls equal are never reported strictly greater
or strictly less, while `ge` and `le` report true for them. -/
theorem float_cmp_composition (i j : Nat) (e1 e2 : expr) (nc : Bool)
    (c : Nat) (s : float_sem) (fv : expr → Rat)
    (hi : i < c) (hj : j < c) :
    ((cmp_gt ⟨.regO i e1, .f32, .kMemory⟩ ⟨.regO j e2, .f32, .kMemory⟩ nc).run c
      = .ok (⟨.regO (c + 4) (.prim2E .int32_and (c + 2) (c + 3)
          (.prim2eps .float_ne_epsilon i j e1 e2 .FLOAT_EPSILON)
          (.prim2E .float_gt c (c + 1) e1 e2 none) none), .i32, .kMemory⟩, c + 5))
    ∧ ((cmp_lt ⟨.regO i e1, .f32, .kMemory⟩ ⟨.regO j e2, .f32, .kMemory⟩ nc).run c
      = .ok (⟨.regO (c + 4) (.prim2E .int32_and (c + 2) (c + 3)
          (.prim2eps .float_ne_epsilon i j e1 e2 .FLOAT_EPSILON)
          (.prim2E .float_lt c (c + 1) e1 e2 none) none), .i32, .kMemory⟩, c + 5))
    ∧ ((cmp_ge ⟨.regO i e1, .f32, .kMemory⟩ ⟨.regO j e2, .f32, .kMemory⟩ nc).run c
      = .ok (⟨.regO (c + 4) (.prim2E .int32_or (c + 2) (c + 3)
          (.prim2eps .float_eq_epsilon i j e1 e2 .FLOAT_EPSILON)
          (.prim2E .float_ge c (c + 1) e1 e2 none) none), .i32, .kMemory⟩, c + 5))
    ∧ ((cmp_le ⟨.regO i e1, .f32, .kMemory⟩ ⟨.regO j e2, .f32, .kMemory⟩ nc).run c
      = .ok (⟨.regO (c + 4) (.prim2E .int32_or (c + 2) (c + 3)
          (.prim2eps .float_eq_epsilon i j e1 e2 .FLOAT_EPSILON)
          (.prim2E .float_le c (c + 1) e1 e2 none) none), .i32, .kMemory⟩, c + 5))
    ∧ ((cmp_gt ⟨.regO i e1, .f64, .kMemory⟩ ⟨.regO j e2, .f64, .kMemory⟩ nc).run c
      = .ok (⟨.regO (c + 4) (.prim2E .int32_and (c + 2) (c + 3)
          (.prim2eps .double_ne_epsilon i j e1 e2 .DOUBLE_EPSILON)
          (.prim2E .double_gt c (c + 1) e1 e2 none) none), .i32, .kMemory⟩, c + 5))
    ∧ ((cmp_lt ⟨.regO i e1, .f64, .kMemory⟩ ⟨.regO j e2, .f64, .kMemory⟩ nc).run c
      = .ok (⟨.regO (c + 4) (.prim2E .int32_and (c + 2) (c + 3)
          (.prim2eps .double_ne_epsilon i j e1 e2 .DOUBLE_EPSILON)
          (.prim2E .double_lt c (c + 1) e1 e2 none) none), .i32, .kMemory⟩, c + 5))
    ∧ ((cmp_ge ⟨.regO i e1, .f64, .kMemory⟩ ⟨.regO j e2, .f64, .kMemory⟩ nc).run c
      = .ok (⟨.regO (c + 4) (.prim2E .int32_or (c + 2) (c + 3)
          (.prim2eps .double_eq_epsilon i j e1 e2 .DOUBLE_EPSILON)
          (.prim2E .double_ge c (c + 1) e1 e2 none) none), .i32, .kMemory⟩, c + 5))
    ∧ ((cmp_le ⟨.regO i e1, .f64, .kMemory⟩ ⟨.regO j e2, .f64, .kMemory⟩ nc).run c
      = .ok (⟨.regO (c + 4) (.prim2E .int32_or (c + 2) (c + 3)
          (.prim2eps .double_eq_epsilon i j e1 e2 .DOUBLE_EPSILON)
          (.prim2E .double_le c (c + 1) e1 e2 none) none), .i32, .kMemory⟩, c + 5))
    ∧ (c ≠ i ∧ c ≠ j ∧ c + 1 ≠ i ∧ c + 1 ≠ j)
    ∧ (s.feq32 (fv e1) (fv e2) = true →
        eval_cmp_expr s fv (.prim2E .int32_and (c + 2) (c + 3)
          (.prim2eps .float_ne_epsilon i j e1 e2 .FLOAT_EPSILON)
          (.prim2E .float_gt c (c + 1) e1 e2 none) none) = false
        ∧ eval_cmp_expr s fv (.prim2E .int32_and (c + 2) (c + 3)
          (.prim2eps .float_ne_epsilon i j e1 e2 .FLOAT_EPSILON)
          (.prim2E .float_lt c (c + 1) e1 e2 none) none) = false
        ∧ eval_cmp_expr s fv (.prim2E .int32_or (c + 2) (c + 3)
          (.prim2eps .float_eq_epsilon i j e1 e2 .FLOAT_EPSILON)
          (.prim2E .float_ge c (c + 1) e1 e2 none) none) = true
        ∧ eval_cmp_expr s fv (.prim2E .int32_or (c + 2) (c + 3)
          (.prim2eps .float_eq_epsilon i j e1 e2 .FLOAT_EPSILON)
          (.prim2E .float_le c (c + 1) e1 e2 none) none) = true)
    ∧ (s.feq64 (fv e1) (fv e2) = true →
        eval_cmp_expr s fv (.prim2E .int32_and (c + 2) (c + 3)
          (.prim2eps .double_ne_epsilon i j e1 e2 .DOUBLE_EPSILON)
          (.prim2E .double_gt c (c + 1) e1 e2 none) none) = false
        ∧ eval_cmp_expr s fv (.prim2E .int32_and (c + 2) (c + 3)
          (.prim2eps .double_ne_epsilon i j e1 e2 .DOUBLE_EPSILON)
          (.prim2E .double_lt c (c + 1) e1 e2 none) none) = false
        ∧ eval_cmp_expr s fv (.prim2E .int32_or (c + 2) (c + 3)
          (.prim2eps .double_eq_epsilon i j e1 e2 .DOUBLE_EPSILON)
          (.prim2E .double_ge c (c + 1) e1 e2 none) none) = true
        ∧ eval_cmp_expr s fv (.prim2E .int32_or (c + 2) (c + 3)
          (.prim2eps .double_eq_epsilon i j e1 e2 .DOUBLE_EPSILON)
          (.prim2E .double_le c (c + 1) e1 e2 none) none) = true) := by
  refine ⟨rfl, rfl, rfl, rfl, rfl, rfl, rfl, rfl,
    ⟨by omega, by omega, by omega, by omega⟩, ?_, ?_⟩
  · intro h
    simp [eval_cmp_expr, h]
  · intro h
    simp [eval_cmp_expr, h]

/-- C4 witness: the `f32` strictly-greater composition at concrete
registers 0, 1 and counter 2: copies land in registers 2, 3, the epsilon
test reads 0, 1, the strict test reads 2, 3, and the conjunction lands in
register 6. -/
theorem float_cmp_composition_witness :
    (cmp_gt ⟨.regO 0 (.movI32 0), .f32, .kMemory⟩
            ⟨.regO 1 (.movI32 0), .f32, .kMemory⟩ true).run 2
      = .ok (⟨.regO 6 (.prim2E .int32_and 4 5
          (.prim2eps .float_ne_epsilon 0 1 (.movI32 0) (.movI32 0) .FLOAT_EPSILON)
          (.prim2E .float_gt 2 3 (.movI32 0) (.movI32 0) none) none),
          .i32, .kMemory⟩, 7) :=
  (float_cmp_composition 0 1 (.movI32 0) (.movI32 0) true 2 triv_float_sem triv_fv
    (by decide) (by decide)).1

/-- C5 counterexample: `cmp_gt` on the 8-byte binary-header pseudo-type
does not dispatch to the 64-bit integer comparison primitive — it falls
into the switch's `__builtin_unreachable()` default. -/
theorem cmp_gt_binary_header_cex :
    (cmp_gt ⟨.regO 0 (.movAbs 0), .binary_header, .kMemory⟩
            ⟨.regO 1 (.movAbs 0), .binary_header, .kMemory⟩ true).run 2
      = .error .unreachableHit :=
  rfl

/-- C5 (amended): for `eq` and `ne`, the binary-header and varchar-header
pseudo-types share the 64-bit integer comparison primitive and the result
type is the 32-bit integer boolean; the ordered comparisons `gt`, `ge`,
`lt`, `le` do not handle these header types at all (they reach the
unreachable default); the supported comparison dispatches all yield a
32-bit integer result type regardless of input type. -/
theorem cmp_header_dispatch (i j : Nat) (e1 e2 : expr) (nc : Bool) (c : Nat) :
    ((cmp_eq ⟨.regO i e1, .binary_header, .kMemory⟩
             ⟨.regO j e2, .binary_header, .kMemory⟩).run c
      = .ok (⟨.regO c (.prim2E .int64_eq i j e1 e2 none), .i32, .kMemory⟩, c + 1))
    ∧ ((cmp_eq ⟨.regO i e1, .varchar_header, .kMemory⟩
             ⟨.regO j e2, .varchar_header, .kMemory⟩).run c
      = .ok (⟨.regO c (.prim2E .int64_eq i j e1 e2 none), .i32, .kMemory⟩, c + 1))
    ∧ ((cmp_ne ⟨.regO i e1, .binary_header, .kMemory⟩
             ⟨.regO j e2, .binary_header, .kMemory⟩).run c
      = .ok (⟨.regO c (.prim2E .int64_ne i j e1 e2 none), .i32, .kMemory⟩, c + 1))
    ∧ ((cmp_ne ⟨.regO i e1, .varchar_header, .kMemory⟩
             ⟨.regO j e2, .varchar_header, .kMemory⟩).run c
      = .ok (⟨.regO c (.prim2E .int64_ne i j e1 e2 none), .i32, .kMemory⟩, c + 1))
    ∧ ((cmp_gt ⟨.regO i e1, .binary_header, .kMemory⟩
             ⟨.regO j e2, .binary_header, .kMemory⟩ nc).run c = .error .unreachableHit)
    ∧ ((cmp_ge ⟨.regO i e1, .binary_header, .kMemory⟩
             ⟨.regO j e2, .binary_header, .kMemory⟩ nc).run c = .error .unreachableHit)
    ∧ ((cmp_lt ⟨.regO i e1, .binary_header, .kMemory⟩
             ⟨.regO j e2, .binary_header, .kMemory⟩ nc).run c = .error .unreachableHit)
    ∧ ((cmp_le ⟨.regO i e1, .binary_header, .kMemory⟩
             ⟨.regO j e2, .binary_header, .kMemory⟩ nc).run c = .error .unreachableHit)
    ∧ ((cmp_gt ⟨.regO i e1, .varchar_header, .kMemory⟩
             ⟨.regO j e2, .varchar_header, .kMemory⟩ nc).run c = .error .unreachableHit)
    ∧ ((cmp_ge ⟨.regO i e1, .varchar_header, .kMemory⟩
             ⟨.regO j e2, .varchar_header, .kMemory⟩ nc).run c = .error .unreachableHit)
    ∧ ((cmp_lt ⟨.regO i e1, .varchar_header, .kMemory⟩
             ⟨.regO j e2, .varchar_header, .kMemory⟩ nc).run c = .error .unreachableHit)
    ∧ ((cmp_le ⟨.regO i e1, .varchar_header, .kMemory⟩
             ⟨.regO j e2, .varchar_header, .kMemory⟩ nc).run c = .error .unreachableHit)
    ∧ ((cmp_gt ⟨.regO i e1, .i64, .kMemory⟩ ⟨.regO j e2, .i64, .kMemory⟩ nc).run c
      = .ok (⟨.regO c (.prim2E .int64_gt i j e1 e2 (some nc)), .i32, .kMemory⟩, c + 1))
    ∧ ((cmp_eq ⟨.regO i e1, .i64, .kMemory⟩ ⟨.regO j e2, .i64, .kMemory⟩).run c
      = .ok (⟨.regO c (.prim2E .int64_eq i j e1 e2 none), .i32, .kMemory⟩, c + 1))
    ∧ ((cmp_eq ⟨.regO i e1, .string_header, .kMemory⟩
             ⟨.regO j e2, .string_header, .kMemory⟩).run c
      = .ok (⟨.regO c (.prim2E .int32_eq i j e1 e2 none), .i32, .kMemory⟩, c + 1)) :=
  ⟨rfl, rfl, rfl, rfl, rfl, rfl, rfl, rfl, rfl, rfl, rfl, rfl, rfl, rfl, rfl⟩

/-- C6: an integer immediate materialized to an integral destination type
becomes a 32-bit register move keeping the destination type exactly when
the literal fits the signed 32-bit range and the destination is not `i64`;
otherwise it is fully materialized into a 64-bit register by an absolute
move and the result type is `i64`. -/
theorem imm2reg_int_spec (v : Int) (dst : data_type_t) (c : Nat)
    (hdst : dst = .i8 ∨ dst = .i16 ∨ dst = .i32 ∨ dst = .i64) :
    ((is_int32 v = true ∧ dst ≠ .i64) →
      (imm2reg dst (.intV v)).run c
        = .ok (⟨.regO c (.movI32 v), dst, .kConst⟩, c + 1))
    ∧ ((dst = .i64 ∨ is_int32 v = false) →
      (imm2reg dst (.intV v)).run c
        = .ok (⟨.regO c (.movAbs v), .i64, .kConst⟩, c + 1)) := by
  rcases hdst with rfl | rfl | rfl | rfl
  · constructor
    · rintro ⟨hfit, -⟩
      simp only [imm2reg, hfit]
      rfl
    · rintro (h | h)
      · exact absurd h (by decide)
      · simp only [imm2reg, h]
        rfl
  · constructor
    · rintro ⟨hfit, -⟩
      simp only [imm2reg, hfit]
      rfl
    · rintro (h | h)
      · exact absurd h (by decide)
      · simp only [imm2reg, h]
        rfl
  · constructor
    · rintro ⟨hfit, -⟩
      simp only [imm2reg, hfit]
      rfl
    · rintro (h | h)
      · exact absurd h (by decide)
      · simp only [imm2reg, h]
        rfl
  · constructor
    · rintro ⟨-, hne⟩
      exact absurd rfl hne
    · intro
      rfl

/-- C6 witness: the literal 7 with destination `i32` fits and keeps its
type in a 32-bit register move. -/
theorem imm2reg_int_spec_witness :
    is_int32 7 = true ∧ data_type_t.i32 ≠ data_type_t.i64
    ∧ (imm2reg .i32 (.intV 7)).run 0
        = .ok (⟨.regO 0 (.movI32 7), .i32, .kConst⟩, 1) :=
  ⟨by decide, by decide,
    (imm2reg_int_spec 7 .i32 0 (Or.inr (Or.inr (Or.inl rfl)))).1
      ⟨by decide, by decide⟩⟩

set_option maxRecDepth 8192 in
/-- C7 (the code is the bug): `is_float` bounds the literal below by
`std::numeric_limits<float>::min()` — the smallest *positive* normal float
— so the negative literal `-1.0`, whose magnitude comfortably fits the
32-bit float range, fails the test and is materialized as a 64-bit float
constant even though the destination is `f32`; a positive literal of the
same magnitude is materialized as a 32-bit float constant. -/
theorem imm2reg_float_negative_literal :
    (imm2reg .f32 (.fpV (-1))).run 0
      = .ok (⟨.regO 0 (.loadPool (.poolF64ofF (-1))), .f64, .kConst⟩, 1)
    ∧ is_float (-1) = false
    ∧ ((1 : Rat) ≤ FLT_MAX_D)
    ∧ (imm2reg .f32 (.fpV 1)).run 0
      = .ok (⟨.regO 0 (.loadPool (.poolF32ofF 1)), .f32, .kConst⟩, 1) := by
  refine ⟨rfl, by decide, by decide, rfl⟩

/-- C8: in `load_registers`, when exactly one side is an immediate, the
immediate is materialized toward the *other* side's declared type while the
non-immediate side keeps its own; when both or neither side is an
immediate, each side is materialized toward its own declared type. -/
theorem load_registers_imm_retype (k ka kb : imm_val) (t1 t2 : data_type_t)
    (kd1 kd2 : data_kind_t) (j : Nat) (e : expr) (m : mem_ref) (c : Nat) :
    ((load_registers ⟨.immO k, t1, kd1⟩ ⟨.regO j e, t2, kd2⟩).run c
      = (do
          let l ← imm2reg t2 k
          pure (l, (⟨.regO j e, t2, kd2⟩ : jit_value_t))).run c)
    ∧ ((load_registers ⟨.immO k, t1, kd1⟩ ⟨.memO m, t2, kd2⟩).run c
      = (do
          let l ← imm2reg t2 k
          let r ← mem2reg ⟨.memO m, t2, kd2⟩
          pure (l, r)).run c)
    ∧ ((load_registers ⟨.regO j e, t1, kd1⟩ ⟨.immO k, t2, kd2⟩).run c
      = (do
          let r ← imm2reg t1 k
          pure ((⟨.regO j e, t1, kd1⟩ : jit_value_t), r)).run c)
    ∧ ((load_registers ⟨.memO m, t1, kd1⟩ ⟨.immO k, t2, kd2⟩).run c
      = (do
          let l ← mem2reg ⟨.memO m, t1, kd1⟩
          let r ← imm2reg t1 k
          pure (l, r)).run c)
    ∧ ((load_registers ⟨.immO ka, t1, kd1⟩ ⟨.immO kb, t2, kd2⟩).run c
      = (do
          let l ← imm2reg t1 ka
          let r ← imm2reg t2 kb
          pure (l, r)).run c)
    ∧ ((load_registers ⟨.regO j e, t1, kd1⟩ ⟨.memO m, t2, kd2⟩).run c
      = (do
          let r ← mem2reg ⟨.memO m, t2, kd2⟩
          pure ((⟨.regO j e, t1, kd1⟩ : jit_value_t), r)).run c) :=
  ⟨rfl, rfl, rfl, rfl, rfl, rfl⟩

end questdb
